import Mathlib

/-!
Verification of the ckmt-python client library (sync client `CKMT` in
`ckmt/client.py`, async client `AsyncCKMT` in `ckmt/async_client.py`,
error hierarchy in `ckmt/exceptions.py`), as a shallow embedding.

The underlying HTTP transports (`requests`, `aiohttp`) and the JSON decoder
are external collaborators: a single request's transport outcome is modelled
as `TransportResult` (either an HTTP response with a status code and raw body
text, or a transport-level failure with a description string), and JSON
decoding as an abstract `String → Json` function.
-/

/-- JSON-compatible values, as returned by the remote service. -/
inductive Json where
  | null : Json
  | bool (b : Bool) : Json
  | num (n : Int) : Json
  | str (s : String) : Json
  | arr (xs : List Json) : Json
  | obj (fs : List (String × Json)) : Json

/-- Outcome of handing one HTTP request to the transport library, restricted
to the outcomes each client's `except` clause is written for: either a
response (status code plus raw body text, the body being read in full before
classification), or an exception of the library's request-exception
hierarchy (`requests.exceptions.RequestException` for the sync client,
`aiohttp.ClientError` for the async client) carrying its string description.
Expiry of aiohttp's total timeout raises `asyncio.TimeoutError`, which lies
outside `aiohttp.ClientError`; that outcome is not representable here — the
full outcome space including it is `CallOutcome` below. -/
inductive TransportResult where
  | response (status : Nat) (text : String) : TransportResult
  | failure (desc : String) : TransportResult

/-- The variants of the exception hierarchy in `ckmt/exceptions.py`:
`APIError` and its subclasses. -/
inductive ErrorKind where
  | apiError
  | authenticationError
  | rateLimitError
  | notFoundError
  | validationError
deriving DecidableEq, Repr

/-- A raised `APIError` (or subclass) value: `message` is the argument to
`Exception.__init__`, `status_code` and `response` are the extra fields
(defaulting to `None`). -/
structure CKMTError where
  kind : ErrorKind
  message : String
  status_code : Option Nat
  response : Option String
deriving DecidableEq, Repr

/-- A raised `ValueError` (configuration error, outside the `CKMTError`
hierarchy), carrying its message. -/
structure ValueError where
  msg : String
deriving DecidableEq, Repr

/-- The immutable configuration stored on a constructed client:
`self.api_key`, `self.base_url`, `self.timeout`. -/
structure ClientConfig where
  api_key : String
  base_url : String
  timeout : Int
deriving DecidableEq, Repr

/-- The process environment slots read by `__init__`: `CKMT_API_KEY` and
`CKMT_BASE_URL` (`none` when the variable is unset). -/
structure Env where
  ckmt_api_key : Option String
  ckmt_base_url : Option String
deriving DecidableEq, Repr

/-- Python truthiness of an `Optional[str]`: `None` and `""` are falsy. -/
def truthy : Option String → Bool
  | none => false
  | some s => !s.isEmpty

/-- Python `a or b` on `Optional[str]` values. -/
def pyOr (a b : Option String) : Option String :=
  if truthy a then a else b

/-- Python `str.rstrip` with a single-character strip set: removes every
trailing occurrence of `c`. -/
def rstrip (s : String) (c : Char) : String :=
  String.mk ((s.data.reverse.dropWhile (fun x => x == c)).reverse)

/-- A value placed in a request-parameter dict: Python `str` or `int`. -/
inductive PyVal where
  | str (s : String) : PyVal
  | int (n : Int) : PyVal
deriving DecidableEq, Repr

/-- The dict comprehension shared by all facade methods:
`{k: v for k, v in params.items() if v is not None}`, on an
insertion-ordered dict whose values are `Optional` Python values. -/
def dropNone (ps : List (String × Option PyVal)) : List (String × PyVal) :=
  ps.filterMap fun kv => kv.2.map fun v => (kv.1, v)

/-- `CKMT.__init__` (client.py lines 19-43): resolve the api key as
`api_key or os.getenv("CKMT_API_KEY")`, raise `ValueError` if it is falsy,
else store the base url `(base_url or os.getenv("CKMT_BASE_URL",
"https://api.ckmt.io")).rstrip("/")` and the timeout. -/
def CKMT.init (api_key base_url : Option String) (timeout : Int) (env : Env) :
    Except ValueError ClientConfig :=
  let key := pyOr api_key env.ckmt_api_key
  if truthy key then
    Except.ok
      ⟨key.getD "",
       rstrip ((pyOr base_url (some (env.ckmt_base_url.getD "https://api.ckmt.io"))).getD "") '/',
       timeout⟩
  else
    Except.error ⟨"API key is required. Set CKMT_API_KEY or pass api_key parameter."⟩

/-- `AsyncCKMT.__init__` (async_client.py lines 19-39): identical credential
and base-url resolution (the timeout is wrapped in `aiohttp.ClientTimeout`,
modelled by its scalar). -/
def AsyncCKMT.init (api_key base_url : Option String) (timeout : Int) (env : Env) :
    Except ValueError ClientConfig :=
  let key := pyOr api_key env.ckmt_api_key
  if truthy key then
    Except.ok
      ⟨key.getD "",
       rstrip ((pyOr base_url (some (env.ckmt_base_url.getD "https://api.ckmt.io"))).getD "") '/',
       timeout⟩
  else
    Except.error ⟨"API key is required. Set CKMT_API_KEY or pass api_key parameter."⟩

/-- client.py line 54: `url = f"{self.base_url}{endpoint}"`. -/
def CKMT.request_url (c : ClientConfig) (endpoint : String) : String :=
  c.base_url ++ endpoint

/-- async_client.py line 83: `url = f"{self.base_url}{endpoint}"`. -/
def AsyncCKMT.request_url (c : ClientConfig) (endpoint : String) : String :=
  c.base_url ++ endpoint

/-- `CKMT._request` (client.py lines 45-85), as a function of the transport
outcome and the JSON decoder: classify the status code in source order
(401, 404, 429, 422, then any ≥ 400), otherwise return `response.json()`;
a `requests.exceptions.RequestException` becomes a bare
`APIError(f"Request failed: {str(e)}")`. Timeout expiry in `requests` raises
`requests.exceptions.Timeout`, a `RequestException` subclass, so it falls
under the `failure` case here; see `CKMT.request_outcome` for the executor
over the full outcome space. -/
def CKMT.request (t : TransportResult) (decode : String → Json) :
    Except CKMTError Json :=
  match t with
  | TransportResult.failure e =>
      Except.error ⟨ErrorKind.apiError, "Request failed: " ++ e, none, none⟩
  | TransportResult.response status text =>
      if status = 401 then
        Except.error ⟨ErrorKind.authenticationError, "Invalid API key", some 401, some text⟩
      else if status = 404 then
        Except.error ⟨ErrorKind.notFoundError, "Resource not found", some 404, some text⟩
      else if status = 429 then
        Except.error ⟨ErrorKind.rateLimitError, "Rate limit exceeded", some 429, some text⟩
      else if status = 422 then
        Except.error ⟨ErrorKind.validationError, "Validation error", some 422, some text⟩
      else if 400 ≤ status then
        Except.error ⟨ErrorKind.apiError, "API error: " ++ text, some status, some text⟩
      else
        Except.ok (decode text)

/-- `AsyncCKMT._request` (async_client.py lines 73-114): the body text is
read first, then the same classification chain; an `aiohttp.ClientError`
becomes a bare `APIError(f"Request failed: {str(e)}")`. The `except` clause
on line 113 catches only `aiohttp.ClientError`, so the `failure` case here
covers exactly that hierarchy; `asyncio.TimeoutError` raised on total-timeout
expiry is not caught and is not representable in `TransportResult` — see
`AsyncCKMT.request_outcome` for the executor over the full outcome space. -/
def AsyncCKMT.request (t : TransportResult) (decode : String → Json) :
    Except CKMTError Json :=
  match t with
  | TransportResult.failure e =>
      Except.error ⟨ErrorKind.apiError, "Request failed: " ++ e, none, none⟩
  | TransportResult.response status text =>
      if status = 401 then
        Except.error ⟨ErrorKind.authenticationError, "Invalid API key", some 401, some text⟩
      else if status = 404 then
        Except.error ⟨ErrorKind.notFoundError, "Resource not found", some 404, some text⟩
      else if status = 429 then
        Except.error ⟨ErrorKind.rateLimitError, "Rate limit exceeded", some 429, some text⟩
      else if status = 422 then
        Except.error ⟨ErrorKind.validationError, "Validation error", some 422, some text⟩
      else if 400 ≤ status then
        Except.error ⟨ErrorKind.apiError, "API error: " ++ text, some status, some text⟩
      else
        Except.ok (decode text)

/-- The full outcome space of the underlying transport call, with timeout
expiry kept apart from the library's request-exception hierarchy: on expiry
of the configured timeout, `requests` raises `requests.exceptions.Timeout`
— a `RequestException` — while expiry of aiohttp's total timeout raises
`asyncio.TimeoutError`, which is not an `aiohttp.ClientError`. -/
inductive CallOutcome where
  | response (status : Nat) (text : String) : CallOutcome
  | libraryError (desc : String) : CallOutcome
  | timeoutExpiry (desc : String) : CallOutcome

/-- What a caller of `_request` observes: a returned JSON value, a raised
`CKMTError`, or an exception that escaped the executor's `except` clause
unwrapped. -/
inductive PyResult where
  | ok (j : Json) : PyResult
  | raised (e : CKMTError) : PyResult
  | uncaught (desc : String) : PyResult

/-- `CKMT._request` (client.py lines 45-85) over the full outcome space:
`except requests.exceptions.RequestException` (line 84) catches every
`requests` failure, including `requests.exceptions.Timeout` on timeout
expiry, so both failure outcomes are wrapped into the bare `APIError`;
responses go through the classification chain of `CKMT.request`. -/
def CKMT.request_outcome (o : CallOutcome) (decode : String → Json) : PyResult :=
  match o with
  | CallOutcome.response status text =>
      match CKMT.request (TransportResult.response status text) decode with
      | Except.ok j => PyResult.ok j
      | Except.error e => PyResult.raised e
  | CallOutcome.libraryError desc =>
      PyResult.raised ⟨ErrorKind.apiError, "Request failed: " ++ desc, none, none⟩
  | CallOutcome.timeoutExpiry desc =>
      PyResult.raised ⟨ErrorKind.apiError, "Request failed: " ++ desc, none, none⟩

/-- `AsyncCKMT._request` (async_client.py lines 73-114) over the full outcome
space: `except aiohttp.ClientError` (line 113) catches only the
`aiohttp.ClientError` hierarchy; `asyncio.TimeoutError`, raised when the
session's total timeout (`aiohttp.ClientTimeout(total=timeout)`, line 38)
expires, is not an `aiohttp.ClientError` and escapes unwrapped; responses go
through the classification chain of `AsyncCKMT.request`. -/
def AsyncCKMT.request_outcome (o : CallOutcome) (decode : String → Json) : PyResult :=
  match o with
  | CallOutcome.response status text =>
      match AsyncCKMT.request (TransportResult.response status text) decode with
      | Except.ok j => PyResult.ok j
      | Except.error e => PyResult.raised e
  | CallOutcome.libraryError desc =>
      PyResult.raised ⟨ErrorKind.apiError, "Request failed: " ++ desc, none, none⟩
  | CallOutcome.timeoutExpiry desc =>
      PyResult.uncaught desc

/-- `CKMT.search` parameter assembly (client.py lines 126-143): the insertion-
ordered params dict with `None` values removed; Python defaults are
`page=1, size=10`. -/
def CKMT.search_params (query : Option String) (port : Option Int)
    (service product version country asn os vuln http_title : Option String)
    (http_status : Option Int) (technology : Option String)
    (page size : Int) : List (String × PyVal) :=
  dropNone
    [("query", query.map PyVal.str),
     ("port", port.map PyVal.int),
     ("service", service.map PyVal.str),
     ("product", product.map PyVal.str),
     ("version", version.map PyVal.str),
     ("country", country.map PyVal.str),
     ("asn", asn.map PyVal.str),
     ("os", os.map PyVal.str),
     ("vuln", vuln.map PyVal.str),
     ("http_title", http_title.map PyVal.str),
     ("http_status", http_status.map PyVal.int),
     ("technology", technology.map PyVal.str),
     ("page", some (PyVal.int page)),
     ("size", some (PyVal.int size))]

/-- `CKMT.count` parameter assembly (client.py lines 176-181); note `port`
is typed `Optional[str]` here. -/
def CKMT.count_params (query port country : Option String) :
    List (String × PyVal) :=
  dropNone
    [("query", query.map PyVal.str),
     ("port", port.map PyVal.str),
     ("country", country.map PyVal.str)]

/-- `CKMT.facets` parameter assembly (client.py lines 200-204); the `facets`
argument is a plain `str` with Python default
`"country,port,service,technology"`. -/
def CKMT.facets_params (query : Option String) (facets : String) :
    List (String × PyVal) :=
  dropNone
    [("query", query.map PyVal.str),
     ("facets", some (PyVal.str facets))]

/-- `CKMT.ports` parameter assembly (client.py lines 219-220); Python default
is `size=100`. -/
def CKMT.ports_params (query : Option String) (size : Int) :
    List (String × PyVal) :=
  dropNone
    [("query", query.map PyVal.str),
     ("size", some (PyVal.int size))]

/-- `AsyncCKMT.search` parameter assembly (async_client.py lines 155-171),
textually identical to the sync version. -/
def AsyncCKMT.search_params (query : Option String) (port : Option Int)
    (service product version country asn os vuln http_title : Option String)
    (http_status : Option Int) (technology : Option String)
    (page size : Int) : List (String × PyVal) :=
  dropNone
    [("query", query.map PyVal.str),
     ("port", port.map PyVal.int),
     ("service", service.map PyVal.str),
     ("product", product.map PyVal.str),
     ("version", version.map PyVal.str),
     ("country", country.map PyVal.str),
     ("asn", asn.map PyVal.str),
     ("os", os.map PyVal.str),
     ("vuln", vuln.map PyVal.str),
     ("http_title", http_title.map PyVal.str),
     ("http_status", http_status.map PyVal.int),
     ("technology", technology.map PyVal.str),
     ("page", some (PyVal.int page)),
     ("size", some (PyVal.int size))]

/-- `AsyncCKMT.count` parameter assembly (async_client.py lines 186-191). -/
def AsyncCKMT.count_params (query port country : Option String) :
    List (String × PyVal) :=
  dropNone
    [("query", query.map PyVal.str),
     ("port", port.map PyVal.str),
     ("country", country.map PyVal.str)]

/-- `AsyncCKMT.facets` parameter assembly (async_client.py lines 201-205). -/
def AsyncCKMT.facets_params (query : Option String) (facets : String) :
    List (String × PyVal) :=
  dropNone
    [("query", query.map PyVal.str),
     ("facets", some (PyVal.str facets))]

/-- `AsyncCKMT.ports` parameter assembly (async_client.py lines 211-212). -/
def AsyncCKMT.ports_params (query : Option String) (size : Int) :
    List (String × PyVal) :=
  dropNone
    [("query", query.map PyVal.str),
     ("size", some (PyVal.int size))]

/-- The `aiohttp.ClientSession` held by `AsyncCKMT`, abstracted to its
closed flag (`session.close()` sets it; a closed session refuses requests). -/
structure ClientSession where
  closed : Bool
deriving DecidableEq, Repr

/-- `AsyncCKMT._ensure_session` (async_client.py lines 57-66): create a fresh
(open) session only when `self.session is None`; otherwise leave
`self.session` untouched, even when it is closed. -/
def AsyncCKMT.ensure_session : Option ClientSession → Option ClientSession
  | none => some ⟨false⟩
  | some s => some s

/-- `AsyncCKMT.close` (async_client.py lines 68-71): `await self.session.close()`
when a session object is present; the `self.session` attribute keeps pointing
at the now-closed session (it is never reset to `None`). -/
def AsyncCKMT.close : Option ClientSession → Option ClientSession
  | none => none
  | some _ => some ⟨true⟩

/-- The session an `AsyncCKMT._request` issued in attribute state `st` runs
on: `_request` first awaits `_ensure_session()` (async_client.py line 82) and
then uses `self.session`. -/
def AsyncCKMT.request_session (st : Option ClientSession) : Option ClientSession :=
  AsyncCKMT.ensure_session st

/-! ### Helper lemmas -/

/-- A key appears in a `dropNone`-filtered params dict iff the original dict
binds it to a set (`some`) value. -/
theorem mem_keys_dropNone {k : String} {ps : List (String × Option PyVal)} :
    k ∈ (dropNone ps).map Prod.fst ↔ ∃ v, (k, some v) ∈ ps := by
  induction ps with
  | nil => simp [dropNone]
  | cons hd tl ih =>
    obtain ⟨k₀, ov⟩ := hd
    cases ov <;>
    · simp only [dropNone, List.filterMap_cons] at ih ⊢
      simp only [Option.map_none', Option.map_some', List.map_cons, List.mem_cons] at ih ⊢
      aesop

/-- The head of `dropWhile p l`, when it exists, falsifies `p`. -/
theorem head?_dropWhile_false {α : Type} (p : α → Bool) (l : List α) (a : α)
    (h : (l.dropWhile p).head? = some a) : p a = false := by
  induction l with
  | nil => simp [List.dropWhile] at h
  | cons x xs ih =>
    rw [List.dropWhile_cons] at h
    by_cases hp : p x
    · rw [if_pos hp] at h
      exact ih h
    · rw [if_neg hp] at h
      simp only [List.head?_cons, Option.some.injEq] at h
      subst h
      exact Bool.eq_false_iff.mpr hp

/-- `rstrip s c` never ends in `c`. -/
theorem rstrip_no_trailing (s : String) (c : Char) :
    (rstrip s c).data.getLast? ≠ some c := by
  intro h
  have h2 : ((s.data.reverse.dropWhile (fun x => x == c)).reverse).getLast? = some c := h
  rw [List.getLast?_reverse] at h2
  have h3 := head?_dropWhile_false (fun x => x == c) s.data.reverse c h2
  simp at h3

/-! ### Claims -/

/-- C1: for every HTTP response with status ≥ 400, both `CKMT._request` and
`AsyncCKMT._request` raise exactly one classified error: 401 an
`AuthenticationError`, 404 a `NotFoundError`, 429 a `RateLimitError`, 422 a
`ValidationError`, any other status ≥ 400 the generic `APIError`; the raised
error's `status_code` equals the response status, its `response` field equals
the raw body text, and in the generic case the message contains the raw body. -/
theorem C1_error_status_classification (status : Nat) (text : String)
    (decode : String → Json) (h : 400 ≤ status) :
    ∃ e : CKMTError,
      CKMT.request (TransportResult.response status text) decode = Except.error e ∧
      AsyncCKMT.request (TransportResult.response status text) decode = Except.error e ∧
      e.status_code = some status ∧
      e.response = some text ∧
      e.kind = (if status = 401 then ErrorKind.authenticationError
        else if status = 404 then ErrorKind.notFoundError
        else if status = 429 then ErrorKind.rateLimitError
        else if status = 422 then ErrorKind.validationError
        else ErrorKind.apiError) ∧
      (status ≠ 401 → status ≠ 404 → status ≠ 429 → status ≠ 422 →
        ∃ pre : String, e.message = pre ++ text) := by
  by_cases h401 : status = 401
  · subst h401
    exact ⟨⟨ErrorKind.authenticationError, "Invalid API key", some 401, some text⟩,
      rfl, rfl, rfl, rfl, rfl, fun hn _ _ _ => absurd rfl hn⟩
  by_cases h404 : status = 404
  · subst h404
    exact ⟨⟨ErrorKind.notFoundError, "Resource not found", some 404, some text⟩,
      by simp [CKMT.request], by simp [AsyncCKMT.request], rfl, rfl, by simp,
      fun _ hn _ _ => absurd rfl hn⟩
  by_cases h429 : status = 429
  · subst h429
    exact ⟨⟨ErrorKind.rateLimitError, "Rate limit exceeded", some 429, some text⟩,
      by simp [CKMT.request], by simp [AsyncCKMT.request], rfl, rfl, by simp,
      fun _ _ hn _ => absurd rfl hn⟩
  by_cases h422 : status = 422
  · subst h422
    exact ⟨⟨ErrorKind.validationError, "Validation error", some 422, some text⟩,
      by simp [CKMT.request], by simp [AsyncCKMT.request], rfl, rfl, by simp,
      fun _ _ _ hn => absurd rfl hn⟩
  exact ⟨⟨ErrorKind.apiError, "API error: " ++ text, some status, some text⟩,
    by simp [CKMT.request, h401, h404, h429, h422, h],
    by simp [AsyncCKMT.request, h401, h404, h429, h422, h],
    rfl, rfl, by simp [h401, h404, h429, h422],
    fun _ _ _ _ => ⟨"API error: ", rfl⟩⟩

/-- C1 witness: status 500 with body "server blew up". -/
theorem C1_error_status_classification_witness :
    400 ≤ 500 ∧
    ∃ e : CKMTError,
      CKMT.request (TransportResult.response 500 "server blew up") (fun _ => Json.null) =
        Except.error e ∧
      AsyncCKMT.request (TransportResult.response 500 "server blew up") (fun _ => Json.null) =
        Except.error e ∧
      e.status_code = some 500 ∧
      e.response = some "server blew up" ∧
      e.kind = (if (500 : Nat) = 401 then ErrorKind.authenticationError
        else if (500 : Nat) = 404 then ErrorKind.notFoundError
        else if (500 : Nat) = 429 then ErrorKind.rateLimitError
        else if (500 : Nat) = 422 then ErrorKind.validationError
        else ErrorKind.apiError) ∧
      ((500 : Nat) ≠ 401 → (500 : Nat) ≠ 404 → (500 : Nat) ≠ 429 → (500 : Nat) ≠ 422 →
        ∃ pre : String, e.message = pre ++ "server blew up") :=
  ⟨by decide,
   C1_error_status_classification 500 "server blew up" (fun _ => Json.null) (by decide)⟩

/-- C2: the blocking and suspending request executors classify identically:
for every transport outcome (status code and body text, or transport failure)
and every JSON decoder, `CKMT._request` and `AsyncCKMT._request` produce the
same result — same parsed JSON on success, same error variant, message,
status_code and response body on failure. -/
theorem C2_sync_async_request_equivalence (t : TransportResult) (decode : String → Json) :
    CKMT.request t decode = AsyncCKMT.request t decode := by
  cases t <;> rfl

/-- C4 (code evidence): failures of the caught library hierarchies
(`RequestException` / `aiohttp.ClientError`) are wrapped identically in both
executors into the bare `APIError` with the description embedded in the
message; but on timeout expiry only the blocking executor wraps
(`requests.exceptions.Timeout` is a `RequestException`), while the
suspending executor lets `asyncio.TimeoutError` escape unwrapped — at the
same timeout-expiry input the two executors disagree, so the claim that
every transport failure including timeout expiry is re-raised as the generic
`APIError` in both modes fails on the async client. -/
theorem C4_async_timeout_escapes_unwrapped :
    (∀ (desc : String) (decode : String → Json),
      CKMT.request_outcome (CallOutcome.libraryError desc) decode =
        PyResult.raised ⟨ErrorKind.apiError, "Request failed: " ++ desc, none, none⟩) ∧
    (∀ (desc : String) (decode : String → Json),
      AsyncCKMT.request_outcome (CallOutcome.libraryError desc) decode =
        PyResult.raised ⟨ErrorKind.apiError, "Request failed: " ++ desc, none, none⟩) ∧
    (∀ (desc : String) (decode : String → Json),
      CKMT.request_outcome (CallOutcome.timeoutExpiry desc) decode =
        PyResult.raised ⟨ErrorKind.apiError, "Request failed: " ++ desc, none, none⟩) ∧
    (∀ (desc : String) (decode : String → Json),
      AsyncCKMT.request_outcome (CallOutcome.timeoutExpiry desc) decode =
        PyResult.uncaught desc) ∧
    AsyncCKMT.request_outcome (CallOutcome.timeoutExpiry "Timeout") (fun _ => Json.null) ≠
      CKMT.request_outcome (CallOutcome.timeoutExpiry "Timeout") (fun _ => Json.null) :=
  ⟨fun _ _ => rfl, fun _ _ => rfl, fun _ _ => rfl, fun _ _ => rfl, fun h => nomatch h⟩

/-- C5: for every HTTP response with status < 400, both request executors
return the JSON-decoded response body unchanged. -/
theorem C5_success_returns_decoded_body (status : Nat) (text : String)
    (decode : String → Json) (h : status < 400) :
    CKMT.request (TransportResult.response status text) decode = Except.ok (decode text) ∧
    AsyncCKMT.request (TransportResult.response status text) decode = Except.ok (decode text) := by
  have h401 : status ≠ 401 := by omega
  have h404 : status ≠ 404 := by omega
  have h429 : status ≠ 429 := by omega
  have h422 : status ≠ 422 := by omega
  have h400 : ¬ 400 ≤ status := by omega
  exact ⟨by simp [CKMT.request, h401, h404, h429, h422, h400],
         by simp [AsyncCKMT.request, h401, h404, h429, h422, h400]⟩

/-- C5 witness: a 200 response whose body decodes to an object. -/
theorem C5_success_returns_decoded_body_witness :
    200 < 400 ∧
    (CKMT.request (TransportResult.response 200 "fixture")
        (fun _ => Json.obj [("total", Json.num 42), ("matches", Json.arr [])]) =
      Except.ok (Json.obj [("total", Json.num 42), ("matches", Json.arr [])]) ∧
     AsyncCKMT.request (TransportResult.response 200 "fixture")
        (fun _ => Json.obj [("total", Json.num 42), ("matches", Json.arr [])]) =
      Except.ok (Json.obj [("total", Json.num 42), ("matches", Json.arr [])])) :=
  ⟨by decide,
   C5_success_returns_decoded_body 200 "fixture"
     (fun _ => Json.obj [("total", Json.num 42), ("matches", Json.arr [])]) (by decide)⟩

/-- C6: constructing either client with no `api_key` argument while the
`CKMT_API_KEY` environment variable is unset raises the configuration
`ValueError` (a type outside the `CKMTError` taxonomy); `__init__` performs
no network activity — the model is a pure computation on the arguments and
environment only. -/
theorem C6_missing_credentials_config_error (base_url benv : Option String) (t : Int) :
    CKMT.init none base_url t ⟨none, benv⟩ =
      Except.error ⟨"API key is required. Set CKMT_API_KEY or pass api_key parameter."⟩ ∧
    AsyncCKMT.init none base_url t ⟨none, benv⟩ =
      Except.error ⟨"API key is required. Set CKMT_API_KEY or pass api_key parameter."⟩ :=
  ⟨rfl, rfl⟩

/-- C7: a constructed client's stored base URL never ends in a slash; every
request URL is the stored base URL concatenated with the endpoint path; when
a non-empty base URL is supplied it is stored with trailing slashes stripped;
when no base URL is supplied, the stored base is the `CKMT_BASE_URL`
environment value with trailing slashes stripped, or, with that variable
also unset, the default "https://api.ckmt.io"; and supplying
"https://example.com/" yields the stored base "https://example.com" and the
request URL "https://example.com/v1/search" for the search path. -/
theorem C7_base_url_normalization (ak bu : Option String) (t : Int) (env : Env)
    (c : ClientConfig) (h : CKMT.init ak bu t env = Except.ok c) :
    c.base_url.data.getLast? ≠ some '/' ∧
    (∀ ep : String, CKMT.request_url c ep = c.base_url ++ ep) ∧
    (∀ s : String, bu = some s → s.isEmpty = false → c.base_url = rstrip s '/') ∧
    (∀ s : String, bu = none → env.ckmt_base_url = some s → c.base_url = rstrip s '/') ∧
    (bu = none → env.ckmt_base_url = none → c.base_url = "https://api.ckmt.io") ∧
    (bu = some "https://example.com/" →
      c.base_url = "https://example.com" ∧
      CKMT.request_url c "/v1/search" = "https://example.com/v1/search") := by
  simp only [CKMT.init] at h
  split at h
  case isFalse => exact absurd h (by simp)
  case isTrue hk =>
    injection h with h2
    subst h2
    refine ⟨rstrip_no_trailing _ '/', fun ep => rfl, ?_, ?_, ?_, ?_⟩
    · intro s hbu hs
      subst hbu
      have ht : truthy (some s) = true := by simp [truthy, hs]
      simp [pyOr, ht]
    · intro s hbu henv
      subst hbu
      rw [henv]
      simp [pyOr, truthy]
    · intro hbu henv
      subst hbu
      rw [henv]
      show rstrip ((pyOr none (some (Option.getD none "https://api.ckmt.io"))).getD "") '/' = _
      decide
    · intro hbu
      subst hbu
      have ht : truthy (some "https://example.com/") = true := rfl
      constructor
      · show rstrip ((pyOr (some "https://example.com/") _).getD "") '/' = _
        simp only [pyOr, ht, if_true]
        decide
      · show rstrip ((pyOr (some "https://example.com/") _).getD "") '/' ++ "/v1/search" = _
        simp only [pyOr, ht, if_true]
        decide

/-- C7 witness: construction with base URL "https://example.com/". -/
theorem C7_base_url_normalization_witness :
    (⟨"k", "https://example.com", 30⟩ : ClientConfig).base_url = "https://example.com" ∧
    CKMT.request_url ⟨"k", "https://example.com", 30⟩ "/v1/search" =
      "https://example.com/v1/search" :=
  (C7_base_url_normalization (some "k") (some "https://example.com/") 30 ⟨none, none⟩
    ⟨"k", "https://example.com", 30⟩ rfl).2.2.2.2.2 rfl

/-- C10: an explicitly supplied empty-string `api_key` behaves exactly as an
absent one: construction falls back to the `CKMT_API_KEY` environment
variable, fails with the configuration `ValueError` when that variable is
unset or empty, and succeeds with the environment key when it is non-empty. -/
theorem C10_empty_api_key_falls_back (bu benv ek : Option String) (t : Int)
    (k : String) (hk : k.isEmpty = false) :
    CKMT.init (some "") bu t ⟨ek, benv⟩ = CKMT.init none bu t ⟨ek, benv⟩ ∧
    AsyncCKMT.init (some "") bu t ⟨ek, benv⟩ = AsyncCKMT.init none bu t ⟨ek, benv⟩ ∧
    CKMT.init (some "") bu t ⟨none, benv⟩ =
      Except.error ⟨"API key is required. Set CKMT_API_KEY or pass api_key parameter."⟩ ∧
    CKMT.init (some "") bu t ⟨some "", benv⟩ =
      Except.error ⟨"API key is required. Set CKMT_API_KEY or pass api_key parameter."⟩ ∧
    AsyncCKMT.init (some "") bu t ⟨none, benv⟩ =
      Except.error ⟨"API key is required. Set CKMT_API_KEY or pass api_key parameter."⟩ ∧
    AsyncCKMT.init (some "") bu t ⟨some "", benv⟩ =
      Except.error ⟨"API key is required. Set CKMT_API_KEY or pass api_key parameter."⟩ ∧
    ∃ c : ClientConfig, CKMT.init (some "") bu t ⟨some k, benv⟩ = Except.ok c ∧ c.api_key = k := by
  have hkk : truthy (some k) = true := by simp [truthy, hk]
  have h0 : ("" : String).isEmpty = true := rfl
  refine ⟨rfl, rfl, rfl, rfl, rfl, rfl,
    ⟨k, rstrip ((pyOr bu (some (benv.getD "https://api.ckmt.io"))).getD "") '/', t⟩, ?_, rfl⟩
  simp [CKMT.init, pyOr, truthy, hkk, hk, h0]

/-- C10 witness: api_key="" with CKMT_API_KEY="x" constructs a client whose
stored key is "x". -/
theorem C10_empty_api_key_falls_back_witness :
    ∃ c : ClientConfig,
      CKMT.init (some "") (some "https://u") 30 ⟨some "x", none⟩ = Except.ok c ∧
      c.api_key = "x" :=
  (C10_empty_api_key_falls_back (some "https://u") none (some "x") 30 "x" rfl).2.2.2.2.2.2

/-- C8 (code evidence): lazy creation works (`_ensure_session` on a `None`
session installs a fresh open session), but after `close()` the attribute
still holds the closed session, so the session a subsequent `_request` runs
on is the closed one — it is never recreated. -/
theorem C8_request_after_close_reuses_closed_session :
    AsyncCKMT.ensure_session none = some ⟨false⟩ ∧
    AsyncCKMT.close (AsyncCKMT.ensure_session none) = some ⟨true⟩ ∧
    AsyncCKMT.request_session (AsyncCKMT.close (AsyncCKMT.ensure_session none)) = some ⟨true⟩ ∧
    (AsyncCKMT.request_session (AsyncCKMT.close (AsyncCKMT.ensure_session none))) ≠ some ⟨false⟩ := by
  refine ⟨rfl, rfl, rfl, by decide⟩

/-- C3: across the facade operations search, count, facets and ports, an
optional argument left at `None` never appears as a key in the outgoing
query parameters; and when every optional argument is unset (with the
Python defaults `page=1, size=10`, `facets="country,port,service,technology"`,
`size=100` in force), search sends exactly page and size, count sends
nothing, facets sends only the default facets string, and ports sends only
its size — in both clients. -/
theorem C3_unset_filters_never_sent (query : Option String) (port : Option Int)
    (service product version country asn os vuln http_title : Option String)
    (http_status : Option Int) (technology : Option String) (page size : Int)
    (cq cp cc fq : Option String) (fs : String) (pq : Option String) (psize : Int) :
    (query = none → "query" ∉ (CKMT.search_params query port service product version
      country asn os vuln http_title http_status technology page size).map Prod.fst) ∧
    (port = none → "port" ∉ (CKMT.search_params query port service product version
      country asn os vuln http_title http_status technology page size).map Prod.fst) ∧
    (service = none → "service" ∉ (CKMT.search_params query port service product version
      country asn os vuln http_title http_status technology page size).map Prod.fst) ∧
    (product = none → "product" ∉ (CKMT.search_params query port service product version
      country asn os vuln http_title http_status technology page size).map Prod.fst) ∧
    (version = none → "version" ∉ (CKMT.search_params query port service product version
      country asn os vuln http_title http_status technology page size).map Prod.fst) ∧
    (country = none → "country" ∉ (CKMT.search_params query port service product version
      country asn os vuln http_title http_status technology page size).map Prod.fst) ∧
    (asn = none → "asn" ∉ (CKMT.search_params query port service product version
      country asn os vuln http_title http_status technology page size).map Prod.fst) ∧
    (os = none → "os" ∉ (CKMT.search_params query port service product version
      country asn os vuln http_title http_status technology page size).map Prod.fst) ∧
    (vuln = none → "vuln" ∉ (CKMT.search_params query port service product version
      country asn os vuln http_title http_status technology page size).map Prod.fst) ∧
    (http_title = none → "http_title" ∉ (CKMT.search_params query port service product version
      country asn os vuln http_title http_status technology page size).map Prod.fst) ∧
    (http_status = none → "http_status" ∉ (CKMT.search_params query port service product version
      country asn os vuln http_title http_status technology page size).map Prod.fst) ∧
    (technology = none → "technology" ∉ (CKMT.search_params query port service product version
      country asn os vuln http_title http_status technology page size).map Prod.fst) ∧
    (cq = none → "query" ∉ (CKMT.count_params cq cp cc).map Prod.fst) ∧
    (cp = none → "port" ∉ (CKMT.count_params cq cp cc).map Prod.fst) ∧
    (cc = none → "country" ∉ (CKMT.count_params cq cp cc).map Prod.fst) ∧
    (fq = none → "query" ∉ (CKMT.facets_params fq fs).map Prod.fst) ∧
    (pq = none → "query" ∉ (CKMT.ports_params pq psize).map Prod.fst) ∧
    CKMT.search_params none none none none none none none none none none none none 1 10 =
      [("page", PyVal.int 1), ("size", PyVal.int 10)] ∧
    CKMT.count_params none none none = [] ∧
    CKMT.facets_params none "country,port,service,technology" =
      [("facets", PyVal.str "country,port,service,technology")] ∧
    CKMT.ports_params none 100 = [("size", PyVal.int 100)] ∧
    AsyncCKMT.search_params none none none none none none none none none none none none 1 10 =
      [("page", PyVal.int 1), ("size", PyVal.int 10)] ∧
    AsyncCKMT.count_params none none none = [] ∧
    AsyncCKMT.facets_params none "country,port,service,technology" =
      [("facets", PyVal.str "country,port,service,technology")] ∧
    AsyncCKMT.ports_params none 100 = [("size", PyVal.int 100)] :=
  ⟨fun h => by subst h; simp only [CKMT.search_params]; rw [mem_keys_dropNone]; simp,
   fun h => by subst h; simp only [CKMT.search_params]; rw [mem_keys_dropNone]; simp,
   fun h => by subst h; simp only [CKMT.search_params]; rw [mem_keys_dropNone]; simp,
   fun h => by subst h; simp only [CKMT.search_params]; rw [mem_keys_dropNone]; simp,
   fun h => by subst h; simp only [CKMT.search_params]; rw [mem_keys_dropNone]; simp,
   fun h => by subst h; simp only [CKMT.search_params]; rw [mem_keys_dropNone]; simp,
   fun h => by subst h; simp only [CKMT.search_params]; rw [mem_keys_dropNone]; simp,
   fun h => by subst h; simp only [CKMT.search_params]; rw [mem_keys_dropNone]; simp,
   fun h => by subst h; simp only [CKMT.search_params]; rw [mem_keys_dropNone]; simp,
   fun h => by subst h; simp only [CKMT.search_params]; rw [mem_keys_dropNone]; simp,
   fun h => by subst h; simp only [CKMT.search_params]; rw [mem_keys_dropNone]; simp,
   fun h => by subst h; simp only [CKMT.search_params]; rw [mem_keys_dropNone]; simp,
   fun h => by subst h; simp only [CKMT.count_params]; rw [mem_keys_dropNone]; simp,
   fun h => by subst h; simp only [CKMT.count_params]; rw [mem_keys_dropNone]; simp,
   fun h => by subst h; simp only [CKMT.count_params]; rw [mem_keys_dropNone]; simp,
   fun h => by subst h; simp only [CKMT.facets_params]; rw [mem_keys_dropNone]; simp,
   fun h => by subst h; simp only [CKMT.ports_params]; rw [mem_keys_dropNone]; simp,
   rfl, rfl, rfl, rfl, rfl, rfl, rfl, rfl⟩

/-- C3 witness: with every search filter unset, the key "query" is absent
from the outgoing search parameters. -/
theorem C3_unset_filters_never_sent_witness :
    "query" ∉ (CKMT.search_params none none none none none none none none none
      none none none 1 10).map Prod.fst :=
  (C3_unset_filters_never_sent none none none none none none none none none none
    none none 1 10 none none none none "country,port,service,technology" none 100).1 rfl

/-- C9: the omit-if-unset test is an is-`None` test, not truthiness: a filter
set to a falsy-but-present value is transmitted — `search(port=0)` sends
`port=0`, `search(query="")` sends the empty query string, `ports(query="")`
sends it too, and every `some` value of these arguments is sent, in both
clients. -/
theorem C9_falsy_set_filters_are_sent (p : Int) (q : String) (page size : Int) :
    ("port", PyVal.int p) ∈ CKMT.search_params none (some p) none none none none
      none none none none none none page size ∧
    ("query", PyVal.str q) ∈ CKMT.search_params (some q) none none none none none
      none none none none none none page size ∧
    ("port", PyVal.int 0) ∈ CKMT.search_params none (some 0) none none none none
      none none none none none none 1 10 ∧
    ("query", PyVal.str "") ∈ CKMT.search_params (some "") none none none none none
      none none none none none none 1 10 ∧
    ("query", PyVal.str "") ∈ CKMT.ports_params (some "") 100 ∧
    ("port", PyVal.int p) ∈ AsyncCKMT.search_params none (some p) none none none none
      none none none none none none page size ∧
    ("query", PyVal.str "") ∈ AsyncCKMT.search_params (some "") none none none none none
      none none none none none none 1 10 :=
  ⟨by simp [CKMT.search_params, dropNone],
   by simp [CKMT.search_params, dropNone],
   by simp [CKMT.search_params, dropNone],
   by simp [CKMT.search_params, dropNone],
   by simp [CKMT.ports_params, dropNone],
   by simp [AsyncCKMT.search_params, dropNone],
   by simp [AsyncCKMT.search_params, dropNone]⟩
